import Mathlib

/-!
# Verification of `starlette_admin/statics/js/search_builder_conditions.js`

A shallow embedding of the SearchBuilder condition module and proofs about it.

Modelling conventions:
* JavaScript values that occur as field names are either strings or (integer)
  numbers; they are embedded as `JSValue`.  Loose equality `==` between a
  number and a string goes through `ToNumber` on the string; only the decimal
  integer fragment of `ToNumber` is modelled, which covers every value the
  module compares.
* DOM/jQuery structures are embedded as explicit records: a `<select>` element
  is its list of `<option>`s plus the index of the currently selected option
  (index 0 right after creation, as in the DOM when options are present); the
  wrapper `<div>` is the list of `<select>` children it contains.
* jQuery `.val()` on a select returns the selected option's value string, or
  null when there is no selected option / no matched element; this "nothing"
  is `Option.none`.  Reading `.length` of such a null result, and calling
  `Array.from` on `undefined`, raise `TypeError` in JavaScript; fallible
  operations therefore return `Except String _` carrying the error message.
* `Array.prototype.sort()` with no comparator sorts stably by the string
  conversion of each element (for a pair `[v, label]` that string is
  `v ++ "," ++ label`) under code-unit comparison; it is embedded as a stable
  insertion sort by that key under `String` order.
* The host DataTables object `that.s.dt` is embedded, for the one event this
  file uses, as `DtState`: the list of currently subscribed one-shot
  `draw.dtsb` listeners together with a counter of `dtsb-redrawLogic`
  triggers fired on `that.s.topGroup`.
* Styling classes (`that.classes.value` etc.) and the jQuery `change`-event
  wiring that merely forwards to the host callback `fn` are cosmetic /
  host-opaque and carry no state observable through the four descriptor
  methods; they are not part of the state.
-/

/-- A JavaScript primitive value as used for field names and choice data:
a string or an (integer) number. -/
inductive JSValue where
  | str : String → JSValue
  | num : Int → JSValue
deriving DecidableEq, Repr

/-- Decimal-integer fragment of ECMAScript `ToNumber` on strings: whitespace
is trimmed, the empty string is `0`, an optional sign followed by decimal
digits is that integer, anything else is NaN (`none`). -/
def toNumber (s : String) : Option Int :=
  let cs := ((s.data.dropWhile Char.isWhitespace).reverse.dropWhile Char.isWhitespace).reverse
  let digits : List Char → Option Nat := fun ds =>
    if ds ≠ [] ∧ ds.all Char.isDigit then
      some (ds.foldl (fun n c => 10 * n + (c.toNat - 48)) 0)
    else none
  match cs with
  | [] => some 0
  | c :: rest =>
    if c = '-' then (digits rest).map (fun n => -(n : Int))
    else if c = '+' then (digits rest).map (fun n => (n : Int))
    else (digits (c :: rest)).map (fun n => (n : Int))

/-- JavaScript loose equality `==` on the embedded values: same-type
comparison is plain equality; a number and a string are compared after
converting the string with `ToNumber` (NaN compares unequal). -/
def looseEq : JSValue → JSValue → Bool
  | .str a, .str b => a == b
  | .num a, .num b => a == b
  | .num a, .str b => match toNumber b with | some n => a == n | none => false
  | .str a, .num b => match toNumber a with | some n => n == b | none => false

/-- JavaScript strict equality `===` on the embedded values: values of
different types are never equal. -/
def strictEq : JSValue → JSValue → Bool
  | .str a, .str b => a == b
  | .num a, .num b => a == b
  | _, _ => false

/-- One entry of the externally supplied field configuration:
`{ name: ..., choices: [[value, label], ...] }`. -/
structure FieldConfig where
  name : JSValue
  choices : List (String × String)
deriving DecidableEq, Repr

/-- Source `get_field_choices(field_name, fields_config)`: linear scan of the
configuration list, returning the `choices` of the first entry whose `name`
compares `==` (loose) to `field_name`; `undefined` (`none`) if no entry
matches. -/
def get_field_choices (field_name : JSValue) (fields_config : List FieldConfig) :
    Option (List (String × String)) :=
  match fields_config with
  | [] => none
  | item :: rest =>
    if looseEq item.name field_name then some item.choices
    else get_field_choices field_name rest

/-- C1: `get_field_choices` returns the choices of the first entry whose name
(loosely) equals the queried field name, and `none` when no entry matches;
entries after the first match are never consulted. -/
theorem get_field_choices_first_match (fn : JSValue) (cfg : List FieldConfig) :
    ((∀ it ∈ cfg, looseEq it.name fn = false) → get_field_choices fn cfg = none) ∧
    (∀ pre e post, cfg = pre ++ e :: post →
      (∀ it ∈ pre, looseEq it.name fn = false) → looseEq e.name fn = true →
      get_field_choices fn cfg = some e.choices) := by
  constructor
  · intro h
    induction cfg with
    | nil => rfl
    | cons item rest ih =>
      have h1 : looseEq item.name fn = false := h item (List.mem_cons_self _ _)
      simp only [get_field_choices, h1, Bool.false_eq_true, if_false]
      exact ih (fun it hit => h it (List.mem_cons_of_mem _ hit))
  · intro pre e post hcfg hpre he
    subst hcfg
    induction pre with
    | nil =>
      simp only [List.nil_append, get_field_choices, he, if_true]
    | cons p ps ih =>
      have hp : looseEq p.name fn = false := hpre p (List.mem_cons_self _ _)
      simp only [List.cons_append, get_field_choices, hp, Bool.false_eq_true, if_false]
      exact ih (fun it hit => hpre it (List.mem_cons_of_mem _ hit))

/-- C1 witness: the spec's concrete example, settled by applying
`get_field_choices_first_match` at that configuration. -/
theorem get_field_choices_first_match_witness :
    get_field_choices (JSValue.str "status")
        [⟨JSValue.str "status", [("1", "Active"), ("0", "Inactive")]⟩] =
      some [("1", "Active"), ("0", "Inactive")] ∧
    get_field_choices (JSValue.str "missing")
        [⟨JSValue.str "status", [("1", "Active"), ("0", "Inactive")]⟩] = none := by
  constructor
  · exact (get_field_choices_first_match (JSValue.str "status") _).2 []
      ⟨JSValue.str "status", [("1", "Active"), ("0", "Inactive")]⟩ [] rfl
      (by intro it hit; cases hit) (by decide)
  · exact (get_field_choices_first_match (JSValue.str "missing") _).1 (by decide)

/-- C10: the name comparison in `get_field_choices` is coercing loose
equality: the numeric name `1` and the queried string `"1"` are of different
types and not strictly equal, yet the entry's choices are returned (in both
query directions). -/
theorem get_field_choices_loose_equality :
    looseEq (JSValue.num 1) (JSValue.str "1") = true ∧
    strictEq (JSValue.num 1) (JSValue.str "1") = false ∧
    get_field_choices (JSValue.str "1") [⟨JSValue.num 1, [("a", "A")]⟩] =
      some [("a", "A")] ∧
    get_field_choices (JSValue.num 1) [⟨JSValue.str "1", [("a", "A")]⟩] =
      some [("a", "A")] := by
  refine ⟨by decide, by decide, ?_, ?_⟩ <;> decide

/-- One `<option>` of the rendered select: `$('<option>').val(item[0]).text(item[1])`. -/
structure SelectOption where
  value : String
  label : String
deriving DecidableEq, Repr

/-- The rendered `<select>` element: its options in document order, and the
index of the currently selected option (0 on creation, since the sentinel
option is always present). -/
structure SelectEl where
  options : List SelectOption
  selectedIdx : Nat
deriving DecidableEq, Repr

/-- The wrapper `<div/>` returned by `createSelectDropdown`: the `<select>`
children appended to it. -/
structure Wrapper where
  selects : List SelectEl
deriving DecidableEq, Repr

/-- Source sentinel option `$('<option value="">' + "Select" + '</option>')`. -/
def sentinelOption : SelectOption := ⟨"", "Select"⟩

/-- The string a pair `[v, label]` converts to under JavaScript `ToString`,
which is the key `Array.prototype.sort()`'s default comparator orders by. -/
def jsDefaultKey (p : String × String) : String := p.1 ++ "," ++ p.2

/-- Code-unit lexicographic "less than or equal" on character lists: the
comparison ECMAScript's default sort comparator induces on the strings the
elements convert to. -/
def jsCharListLe : List Char → List Char → Bool
  | [], _ => true
  | _ :: _, [] => false
  | a :: as, b :: bs =>
    if a.toNat < b.toNat then true
    else if b.toNat < a.toNat then false
    else jsCharListLe as bs

/-- The ordering `Array.prototype.sort()`'s default comparator induces on the
`[v, label]` pairs: compare their `ToString` images code unit by code unit. -/
def jsLeKey (p q : String × String) : Prop :=
  jsCharListLe (jsDefaultKey p).data (jsDefaultKey q).data = true

instance : DecidableRel jsLeKey := fun p q =>
  inferInstanceAs (Decidable (jsCharListLe (jsDefaultKey p).data (jsDefaultKey q).data = true))

theorem jsCharListLe_total (x : List Char) :
    ∀ y, jsCharListLe x y = true ∨ jsCharListLe y x = true := by
  induction x with
  | nil => intro y; exact Or.inl rfl
  | cons a as ih =>
    intro y
    cases y with
    | nil => exact Or.inr rfl
    | cons b bs =>
      rcases Nat.lt_trichotomy a.toNat b.toNat with h | h | h
      · left; simp [jsCharListLe, h]
      · have hab : ¬ a.toNat < b.toNat := by omega
        have hba : ¬ b.toNat < a.toNat := by omega
        rcases ih bs with h2 | h2
        · left; simp [jsCharListLe, hab, hba, h2]
        · right; simp [jsCharListLe, hab, hba, h2]
      · right; simp [jsCharListLe, h]

theorem jsCharListLe_trans (x : List Char) :
    ∀ y z, jsCharListLe x y = true → jsCharListLe y z = true → jsCharListLe x z = true := by
  induction x with
  | nil => intro y z _ _; rfl
  | cons a as ih =>
    intro y z h1 h2
    cases y with
    | nil => simp [jsCharListLe] at h1
    | cons b bs =>
      cases z with
      | nil => simp [jsCharListLe] at h2
      | cons c cs =>
        simp only [jsCharListLe] at h1 h2 ⊢
        rcases Nat.lt_trichotomy a.toNat b.toNat with hab | hab | hab
        · rcases Nat.lt_trichotomy b.toNat c.toNat with hbc | hbc | hbc
          · rw [if_pos (by omega)]
          · rw [if_pos (by omega)]
          · rw [if_neg (by omega), if_pos (by omega)] at h2
            exact absurd h2 (by simp)
        · rcases Nat.lt_trichotomy b.toNat c.toNat with hbc | hbc | hbc
          · rw [if_pos (by omega)]
          · rw [if_neg (by omega), if_neg (by omega)] at h1
            rw [if_neg (by omega), if_neg (by omega)] at h2
            rw [if_neg (by omega), if_neg (by omega)]
            exact ih bs cs h1 h2
          · rw [if_neg (by omega), if_pos (by omega)] at h2
            exact absurd h2 (by simp)
        · rw [if_neg (by omega), if_pos (by omega)] at h1
          exact absurd h1 (by simp)

instance : IsTotal (String × String) jsLeKey :=
  ⟨fun p q => jsCharListLe_total (jsDefaultKey p).data (jsDefaultKey q).data⟩

instance : IsTrans (String × String) jsLeKey :=
  ⟨fun _ _ _ h1 h2 => jsCharListLe_trans _ _ _ h1 h2⟩

/-- Source `Array.from(values).sort()`: the default sort, a stable sort of the pairs
by the default comparator's ordering of their string conversions. -/
def jsSort (l : List (String × String)) : List (String × String) :=
  List.insertionSort jsLeKey l

/-- Source `createSelectDropdown(that, values)`: builds a wrapper `<div/>` holding one
`<select>` whose first option is the sentinel and whose remaining options come
from `Array.from(values).sort()`, one per pair, with value `item[0]` and text
`item[1]`.  When `values` is `undefined` (no matching field configuration),
`Array.from(undefined)` raises a `TypeError`.  The styling-class arguments of
the original are cosmetic and carry no state. -/
def createSelectDropdown (values : Option (List (String × String))) :
    Except String Wrapper :=
  match values with
  | none => Except.error "TypeError: undefined is not iterable"
  | some vs =>
    Except.ok
      { selects :=
          [{ options :=
               sentinelOption ::
                 (jsSort vs).map (fun item => { value := item.1, label := item.2 }),
             selectedIdx := 0 }] }

/-- jQuery `$(el[0]).find('select')` on the wrapper: its first select child,
`none` when there is none. -/
def findSelect (w : Wrapper) : Option SelectEl := w.selects.head?

/-- Reading `.val()` on a select element: the selected option's value string, null
(`none`) when no option is selected. -/
def selectElVal (s : SelectEl) : Option String :=
  (s.options[s.selectedIdx]?).map SelectOption.value

/-- Reading `$(el[0]).find('select').val()`: value of the first select child's
selected option; `none` models both an empty jQuery match (undefined) and a
null selection. -/
def wrapperVal (w : Wrapper) : Option String :=
  match findSelect w with
  | none => none
  | some s => selectElVal s

/-- The user selecting the `i`-th option of the wrapper's select control (a
DOM selection change); out-of-range indices leave the control unchanged. -/
def selectOptionAt (w : Wrapper) (i : Nat) : Wrapper :=
  match w.selects with
  | [] => w
  | s :: rest =>
    if i < s.options.length then { selects := { s with selectedIdx := i } :: rest }
    else w

/-- The options of the wrapper's (first) select control. -/
def optionsOf (w : Wrapper) : List SelectOption :=
  match w.selects with
  | [] => []
  | s :: _ => s.options

/-- An array-type condition descriptor.  `conditionName` is modelled on the
host's `dt.i18n` localization function; `init` takes the row's originating
field name `that.s.origData` (the `change`-listener attached before returning
only forwards to the host callback `fn` and adds no observable state);
`inputValue` and `isInputValid` read the returned control. -/
structure ArrayConditionDescriptor where
  conditionName : (String → String) → String
  init : JSValue → Except String Wrapper
  inputValue : Wrapper → Option String
  isInputValid : Wrapper → Except String Bool

/-- Source `array.equal(fields_config)`. -/
def array_equal (fields_config : List FieldConfig) : ArrayConditionDescriptor where
  conditionName := fun i18n => i18n "searchBuilder.conditions.array.equals"
  init := fun origData => createSelectDropdown (get_field_choices origData fields_config)
  inputValue := fun el => wrapperVal el
  isInputValid := fun el =>
    match wrapperVal el with
    | none => Except.error "TypeError: Cannot read properties of null (reading length)"
    | some s => Except.ok (decide (s.length > 0))

/-- Source `array.notEqual(fields_config)`. -/
def array_notEqual (fields_config : List FieldConfig) : ArrayConditionDescriptor where
  conditionName := fun i18n => i18n "searchBuilder.conditions.array.not"
  init := fun origData => createSelectDropdown (get_field_choices origData fields_config)
  inputValue := fun el => wrapperVal el
  isInputValid := fun el =>
    match wrapperVal el with
    | none => Except.error "TypeError: Cannot read properties of null (reading length)"
    | some s => Except.ok (decide (s.length > 0))

/-- Source `array.contains(fields_config)`. -/
def array_contains (fields_config : List FieldConfig) : ArrayConditionDescriptor where
  conditionName := fun i18n => i18n "searchBuilder.conditions.array.contains"
  init := fun origData => createSelectDropdown (get_field_choices origData fields_config)
  inputValue := fun el => wrapperVal el
  isInputValid := fun el =>
    match wrapperVal el with
    | none => Except.error "TypeError: Cannot read properties of null (reading length)"
    | some s => Except.ok (decide (s.length > 0))

/-- Source `array.notContains(fields_config)`. -/
def array_notContains (fields_config : List FieldConfig) : ArrayConditionDescriptor where
  conditionName := fun i18n => i18n "searchBuilder.conditions.array.notContains"
  init := fun origData => createSelectDropdown (get_field_choices origData fields_config)
  inputValue := fun el => wrapperVal el
  isInputValid := fun el =>
    match wrapperVal el with
    | none => Except.error "TypeError: Cannot read properties of null (reading length)"
    | some s => Except.ok (decide (s.length > 0))

/-- A string has positive length exactly when it is not the empty string. -/
theorem string_length_pos_iff (s : String) : 0 < s.length ↔ s ≠ "" := by
  cases s with
  | mk data =>
    show 0 < data.length ↔ _
    simp [String.ext_iff, List.length_pos]

/-- C4: on a defined choice list, `createSelectDropdown` yields a wrapper with
exactly one select control; its first option is the sentinel `⟨"", "Select"⟩`,
it has one further option per choice pair (value the pair's first component,
label its second, as a multiset exactly the input pairs), and those options
are ordered by the default `ToString`-key ordering `jsDefaultKey`. -/
theorem createSelectDropdown_structure (cs : List (String × String)) (w : Wrapper)
    (hw : createSelectDropdown (some cs) = Except.ok w) :
    w.selects.length = 1 ∧
    (optionsOf w).head? = some ⟨"", "Select"⟩ ∧
    (optionsOf w).length = cs.length + 1 ∧
    List.Perm ((optionsOf w).tail.map (fun o => (o.value, o.label))) cs ∧
    List.Pairwise jsLeKey
      ((optionsOf w).tail.map (fun o => (o.value, o.label))) := by
  have hw' : w =
      { selects :=
          [{ options :=
               sentinelOption ::
                 (jsSort cs).map (fun item => { value := item.1, label := item.2 }),
             selectedIdx := 0 }] } := by
    simpa [createSelectDropdown] using hw.symm
  subst hw'
  have hmap :
      ((jsSort cs).map
          (fun item : String × String =>
            ({ value := item.1, label := item.2 } : SelectOption))).map
        (fun o => (o.value, o.label)) = jsSort cs := by
    induction jsSort cs with
    | nil => rfl
    | cons a t ih => simp only [List.map_cons, ih]
  refine ⟨rfl, rfl, ?_, ?_, ?_⟩
  · show (sentinelOption :: _).length = cs.length + 1
    simp [jsSort, List.length_insertionSort]
  · show (((jsSort cs).map _).map _).Perm cs
    rw [hmap]
    exact List.perm_insertionSort _ cs
  · show List.Pairwise _ (((jsSort cs).map _).map _)
    rw [hmap]
    exact List.sorted_insertionSort jsLeKey cs

/-- C4 witness: the spec's `[["b","B"],["a","A"]]` example, by applying
`createSelectDropdown_structure` to the concretely computed wrapper. -/
theorem createSelectDropdown_structure_witness :
    (Wrapper.mk [⟨[⟨"", "Select"⟩, ⟨"a", "A"⟩, ⟨"b", "B"⟩], 0⟩]).selects.length = 1 ∧
    (optionsOf (Wrapper.mk [⟨[⟨"", "Select"⟩, ⟨"a", "A"⟩, ⟨"b", "B"⟩], 0⟩])).head? =
      some ⟨"", "Select"⟩ ∧
    (optionsOf (Wrapper.mk [⟨[⟨"", "Select"⟩, ⟨"a", "A"⟩, ⟨"b", "B"⟩], 0⟩])).length =
      [("b", "B"), ("a", "A")].length + 1 ∧
    List.Perm
      ((optionsOf (Wrapper.mk [⟨[⟨"", "Select"⟩, ⟨"a", "A"⟩, ⟨"b", "B"⟩], 0⟩])).tail.map
        (fun o => (o.value, o.label)))
      [("b", "B"), ("a", "A")] ∧
    List.Pairwise jsLeKey
      ((optionsOf (Wrapper.mk [⟨[⟨"", "Select"⟩, ⟨"a", "A"⟩, ⟨"b", "B"⟩], 0⟩])).tail.map
        (fun o => (o.value, o.label))) :=
  createSelectDropdown_structure [("b", "B"), ("a", "A")]
    (Wrapper.mk [⟨[⟨"", "Select"⟩, ⟨"a", "A"⟩, ⟨"b", "B"⟩], 0⟩]) rfl

/-- C2: on any handle produced by an array-condition `init` and any selection
made on it, `isInputValid` reads `Except.ok false` exactly when the selected
option's underlying value is the empty string (as on the sentinel option),
and `Except.ok true` exactly when the selected value is non-empty. -/
theorem array_isInputValid_iff_selected_nonempty (cfg : List FieldConfig)
    (fn : JSValue) (w : Wrapper) (i : Nat)
    (hw : (array_equal cfg).init fn = Except.ok w) (hi : i < (optionsOf w).length) :
    ((array_equal cfg).isInputValid (selectOptionAt w i) = Except.ok false ↔
      wrapperVal (selectOptionAt w i) = some "") ∧
    ((array_equal cfg).isInputValid (selectOptionAt w i) = Except.ok true ↔
      ∃ s, wrapperVal (selectOptionAt w i) = some s ∧ s ≠ "") := by
  have hw2 : createSelectDropdown (get_field_choices fn cfg) = Except.ok w := hw
  cases hcs : get_field_choices fn cfg with
  | none =>
    rw [hcs] at hw2
    exact absurd hw2 (by simp [createSelectDropdown])
  | some cs =>
    rw [hcs] at hw2
    have hw3 : w =
        { selects :=
            [{ options :=
                 sentinelOption ::
                   (jsSort cs).map (fun item => { value := item.1, label := item.2 }),
               selectedIdx := 0 }] } := by
      simpa [createSelectDropdown] using hw2.symm
    subst hw3
    set opts : List SelectOption :=
      sentinelOption ::
        (jsSort cs).map (fun item => { value := item.1, label := item.2 }) with hopts
    have hi' : i < opts.length := hi
    have hsel :
        selectOptionAt (Wrapper.mk [⟨opts, 0⟩]) i = Wrapper.mk [⟨opts, i⟩] := by
      simp [selectOptionAt, hi']
    have hval : wrapperVal (Wrapper.mk [⟨opts, i⟩]) = some (opts.get ⟨i, hi'⟩).value := by
      simp [wrapperVal, findSelect, selectElVal, List.getElem?_eq_getElem hi']
    have hvalid :
        (array_equal cfg).isInputValid (Wrapper.mk [⟨opts, i⟩]) =
          Except.ok (decide (0 < ((opts.get ⟨i, hi'⟩).value).length)) := by
      show (match wrapperVal (Wrapper.mk [⟨opts, i⟩]) with
            | none => Except.error "TypeError: Cannot read properties of null (reading length)"
            | some s => Except.ok (decide (s.length > 0))) =
          Except.ok (decide (0 < ((opts.get ⟨i, hi'⟩).value).length))
      rw [hval]
    rw [hsel, hvalid, hval]
    constructor
    · simp only [Except.ok.injEq, decide_eq_false_iff_not, Option.some.injEq,
        string_length_pos_iff, not_not]
    · simp only [Except.ok.injEq, decide_eq_true_eq, Option.some.injEq,
        string_length_pos_iff]
      constructor
      · intro h; exact ⟨_, rfl, h⟩
      · rintro ⟨s, rfl, hs⟩; exact hs

/-- C2 witness: on the spec's status field, selecting the option with value
`"1"` validates, selecting the sentinel does not; by applying
`array_isInputValid_iff_selected_nonempty` at that concrete handle. -/
theorem array_isInputValid_iff_selected_nonempty_witness :
    (array_equal [⟨JSValue.str "status", [("1", "Active"), ("0", "Inactive")]⟩]).isInputValid
        (selectOptionAt
          (Wrapper.mk [⟨[⟨"", "Select"⟩, ⟨"0", "Inactive"⟩, ⟨"1", "Active"⟩], 0⟩]) 2) =
      Except.ok true ∧
    (array_equal [⟨JSValue.str "status", [("1", "Active"), ("0", "Inactive")]⟩]).isInputValid
        (selectOptionAt
          (Wrapper.mk [⟨[⟨"", "Select"⟩, ⟨"0", "Inactive"⟩, ⟨"1", "Active"⟩], 0⟩]) 0) =
      Except.ok false := by
  constructor
  · exact ((array_isInputValid_iff_selected_nonempty
      [⟨JSValue.str "status", [("1", "Active"), ("0", "Inactive")]⟩]
      (JSValue.str "status") _ 2 rfl (by decide)).2).mpr ⟨"1", rfl, by decide⟩
  · exact ((array_isInputValid_iff_selected_nonempty
      [⟨JSValue.str "status", [("1", "Active"), ("0", "Inactive")]⟩]
      (JSValue.str "status") _ 0 rfl (by decide)).1).mpr rfl

/-- C3: every choice pair `(v, l)` appears as an option of the rendered
dropdown, and selecting that option makes `inputValue` return exactly `v` —
the value round-trips identically through the control. -/
theorem array_inputValue_roundtrip (cfg : List FieldConfig)
    (cs : List (String × String)) (v l : String) (w : Wrapper)
    (hw : createSelectDropdown (some cs) = Except.ok w) (hm : (v, l) ∈ cs) :
    ∃ i, (optionsOf w)[i]? = some ⟨v, l⟩ ∧
      (array_equal cfg).inputValue (selectOptionAt w i) = some v := by
  have hw3 : w =
      { selects :=
          [{ options :=
               sentinelOption ::
                 (jsSort cs).map (fun item => { value := item.1, label := item.2 }),
             selectedIdx := 0 }] } := by
    simpa [createSelectDropdown] using hw.symm
  subst hw3
  have hmem : (v, l) ∈ jsSort cs := (List.perm_insertionSort jsLeKey cs).mem_iff.mpr hm
  have hmemmap :
      (⟨v, l⟩ : SelectOption) ∈
        (jsSort cs).map (fun item => ({ value := item.1, label := item.2 } : SelectOption)) :=
    List.mem_map_of_mem _ hmem
  obtain ⟨j, hj, hjv⟩ := List.mem_iff_getElem.mp hmemmap
  have hlen :
      (optionsOf
        (Wrapper.mk
          [⟨sentinelOption ::
              (jsSort cs).map (fun item => { value := item.1, label := item.2 }), 0⟩])).length =
        ((jsSort cs).map
          (fun item => ({ value := item.1, label := item.2 } : SelectOption))).length + 1 := rfl
  have hjl : j + 1 <
      (sentinelOption ::
        (jsSort cs).map (fun item => ({ value := item.1, label := item.2 } : SelectOption))).length := by
    simpa using Nat.succ_lt_succ hj
  refine ⟨j + 1, ?_, ?_⟩
  · show (sentinelOption ::
        (jsSort cs).map (fun item => ({ value := item.1, label := item.2 } : SelectOption)))[j+1]? =
      some ⟨v, l⟩
    rw [List.getElem?_cons_succ, List.getElem?_eq_getElem hj, hjv]
  · have hjl2 : j < (jsSort cs).length := by simpa using hj
    have hsel :
        selectOptionAt
          (Wrapper.mk
            [⟨sentinelOption ::
                (jsSort cs).map (fun item => { value := item.1, label := item.2 }), 0⟩]) (j + 1) =
          Wrapper.mk
            [⟨sentinelOption ::
                (jsSort cs).map (fun item => { value := item.1, label := item.2 }), j + 1⟩] := by
      show (if j + 1 <
          (sentinelOption ::
            (jsSort cs).map (fun item => ({ value := item.1, label := item.2 } : SelectOption))).length
        then Wrapper.mk
          [⟨sentinelOption ::
              (jsSort cs).map (fun item => { value := item.1, label := item.2 }), j + 1⟩]
        else Wrapper.mk
          [⟨sentinelOption ::
              (jsSort cs).map (fun item => { value := item.1, label := item.2 }), 0⟩]) = _
      rw [if_pos hjl]
    rw [hsel]
    show ((sentinelOption ::
        (jsSort cs).map (fun item => ({ value := item.1, label := item.2 } : SelectOption)))[j+1]?).map
        SelectOption.value = some v
    rw [List.getElem?_cons_succ, List.getElem?_eq_getElem hj, hjv]
    rfl

/-- C3 witness: the pair `("a", "A")` of the spec's example round-trips
through the dropdown, by applying `array_inputValue_roundtrip` there. -/
theorem array_inputValue_roundtrip_witness :
    ∃ i,
      (optionsOf (Wrapper.mk [⟨[⟨"", "Select"⟩, ⟨"a", "A"⟩, ⟨"b", "B"⟩], 0⟩]))[i]? =
        some ⟨"a", "A"⟩ ∧
      (array_equal []).inputValue
          (selectOptionAt (Wrapper.mk [⟨[⟨"", "Select"⟩, ⟨"a", "A"⟩, ⟨"b", "B"⟩], 0⟩]) i) =
        some "a" :=
  array_inputValue_roundtrip [] [("b", "B"), ("a", "A")] "a" "A"
    (Wrapper.mk [⟨[⟨"", "Select"⟩, ⟨"a", "A"⟩, ⟨"b", "B"⟩], 0⟩]) rfl (by decide)

/-- C5 counterexample: for a field name matching no configuration entry, the
array condition's `init` does not complete silently — `Array.from(undefined)`
raises a `TypeError`, so no dropdown is rendered at all. -/
theorem array_init_unmatched_raises :
    (array_equal [⟨JSValue.str "status", [("1", "Active"), ("0", "Inactive")]⟩]).init
        (JSValue.str "missing") =
      Except.error "TypeError: undefined is not iterable" := rfl

/-- C5 (amended): when the queried field name matches no configuration entry,
`init` raises the `TypeError` of `Array.from(undefined)`; the silently
rendered sentinel-only dropdown occurs exactly for a matching entry whose
choice list is empty. -/
theorem array_init_unmatched_behavior (cfg : List FieldConfig) (fn : JSValue) :
    (get_field_choices fn cfg = none →
      (array_equal cfg).init fn = Except.error "TypeError: undefined is not iterable") ∧
    (get_field_choices fn cfg = some [] →
      (array_equal cfg).init fn = Except.ok (Wrapper.mk [⟨[sentinelOption], 0⟩])) := by
  constructor
  · intro h
    show createSelectDropdown (get_field_choices fn cfg) = _
    rw [h]
    rfl
  · intro h
    show createSelectDropdown (get_field_choices fn cfg) = _
    rw [h]
    rfl

/-- C5 witness: both branches of `array_init_unmatched_behavior` at concrete
configurations — an unmatched name raises, a matched empty choice list gives
the sentinel-only dropdown. -/
theorem array_init_unmatched_behavior_witness :
    (array_equal []).init (JSValue.str "x") =
      Except.error "TypeError: undefined is not iterable" ∧
    (array_equal [⟨JSValue.str "x", []⟩]).init (JSValue.str "x") =
      Except.ok (Wrapper.mk [⟨[sentinelOption], 0⟩]) :=
  ⟨(array_init_unmatched_behavior [] (JSValue.str "x")).1 rfl,
   (array_init_unmatched_behavior [⟨JSValue.str "x", []⟩] (JSValue.str "x")).2 (by decide)⟩

/-- C7: the four array condition factories agree definitionally on `init`,
`inputValue` and `isInputValid`; the only observable difference between the
four descriptors is the localization key their `conditionName` resolves. -/
theorem array_conditions_differ_only_in_name (cfg : List FieldConfig) :
    (array_notEqual cfg).init = (array_equal cfg).init ∧
    (array_contains cfg).init = (array_equal cfg).init ∧
    (array_notContains cfg).init = (array_equal cfg).init ∧
    (array_notEqual cfg).inputValue = (array_equal cfg).inputValue ∧
    (array_contains cfg).inputValue = (array_equal cfg).inputValue ∧
    (array_notContains cfg).inputValue = (array_equal cfg).inputValue ∧
    (array_notEqual cfg).isInputValid = (array_equal cfg).isInputValid ∧
    (array_contains cfg).isInputValid = (array_equal cfg).isInputValid ∧
    (array_notContains cfg).isInputValid = (array_equal cfg).isInputValid ∧
    List.Pairwise (fun a b => a ≠ b)
      [(array_equal cfg).conditionName id, (array_notEqual cfg).conditionName id,
       (array_contains cfg).conditionName id, (array_notContains cfg).conditionName id] := by
  refine ⟨rfl, rfl, rfl, rfl, rfl, rfl, rfl, rfl, rfl, ?_⟩
  show List.Pairwise (fun a b => a ≠ b)
    ["searchBuilder.conditions.array.equals", "searchBuilder.conditions.array.not",
     "searchBuilder.conditions.array.contains", "searchBuilder.conditions.array.notContains"]
  decide

/-- A listener currently subscribed to the host table's `draw.dtsb` event.
The only listener this module ever registers is the one-shot handler of
`noInputCondition`, which triggers `dtsb-redrawLogic` on `that.s.topGroup`
and (being registered with `.one`) is removed after its first run. -/
inductive DrawListener where
  | redrawOnce
deriving DecidableEq, Repr

/-- The observable host state: the currently subscribed `draw.dtsb`
listeners of `that.s.dt`, and how many `dtsb-redrawLogic` triggers have been
fired on `that.s.topGroup`. -/
structure DtState where
  drawListeners : List DrawListener
  redrawLogicCount : Nat
deriving DecidableEq, Repr

/-- A host state with no subscribed listener and no trigger fired yet. -/
def dtEmpty : DtState := ⟨[], 0⟩

/-- Source `that.s.dt.one('draw.dtsb', handler)`: subscribe the one-shot redraw
handler. -/
def dtOne (s : DtState) : DtState :=
  { s with drawListeners := s.drawListeners ++ [DrawListener.redrawOnce] }

/-- The host emitting one `draw.dtsb` event: every subscribed listener runs
(each `redrawOnce` fires one `dtsb-redrawLogic` trigger), and one-shot
listeners — all listeners of this module — are removed. -/
def fireDraw (s : DtState) : DtState :=
  { drawListeners := [],
    redrawLogicCount := s.redrawLogicCount + s.drawListeners.length }

/-- Firing `n` consecutive `draw.dtsb` events. -/
def fireDraws (s : DtState) : Nat → DtState
  | 0 => s
  | n + 1 => fireDraws (fireDraw s) n

/-- A condition descriptor as the host sees it: a JavaScript object that may
or may not define each of the four members.  A member that the object does
not define reads as `undefined` (`none`); `string`/`number`/`date` conditions
return the object `{}` defining none of them.  `conditionName` is modelled on
the host's `dt.i18n`, `init` on the host state, and `inputValue` /
`isInputValid` over their (ignored) JavaScript argument lists. -/
structure HostDescriptor where
  conditionName : Option ((String → String) → String)
  init : Option (DtState → DtState)
  inputValue : Option (List JSValue → Option JSValue)
  isInputValid : Option (List JSValue → Bool)

/-- JavaScript member invocation `obj.m(x)`: calling a member the object does
not define raises a `TypeError`; a defined member is applied. -/
def jsCall {α β : Type} (f : Option (α → β)) (x : α) : Except String β :=
  match f with
  | some g => Except.ok (g x)
  | none => Except.error "TypeError: not a function"

/-- Source `noInputCondition(translationKey)`: the shared factory for conditions
that take no input.  `conditionName` resolves the key through `dt.i18n`;
`init` subscribes the one-shot redraw listener with `dt.one`; `inputValue`
has an empty body (returns `undefined`); `isInputValid` returns `true`. -/
def noInputCondition (translationKey : String) : HostDescriptor where
  conditionName := some (fun i18n => i18n translationKey)
  init := some (fun that => dtOne that)
  inputValue := some (fun _ => none)
  isInputValid := some (fun _ => true)

/-- Source `array.empty()`: `noInputCondition('searchBuilder.conditions.array.empty')`. -/
def array_empty : HostDescriptor :=
  noInputCondition "searchBuilder.conditions.array.empty"

/-- Source `array.notEmpty()`: `noInputCondition('searchBuilder.conditions.array.notEmpty')`. -/
def array_notEmpty : HostDescriptor :=
  noInputCondition "searchBuilder.conditions.array.notEmpty"

/-- Source `string.equal()`: `return {};` — defer to the host's implementation. -/
def string_equal : HostDescriptor := ⟨none, none, none, none⟩

/-- Source `string.notEqual()`: `return {};`. -/
def string_notEqual : HostDescriptor := ⟨none, none, none, none⟩

/-- Source `string.contains()`: `return {};`. -/
def string_contains : HostDescriptor := ⟨none, none, none, none⟩

/-- Source `string.notContains()`: `return {};`. -/
def string_notContains : HostDescriptor := ⟨none, none, none, none⟩

/-- Source `string.startsWith()`: `return {};`. -/
def string_startsWith : HostDescriptor := ⟨none, none, none, none⟩

/-- Source `string.notStartsWith()`: `return {};`. -/
def string_notStartsWith : HostDescriptor := ⟨none, none, none, none⟩

/-- Source `string.endsWith()`: `return {};`. -/
def string_endsWith : HostDescriptor := ⟨none, none, none, none⟩

/-- Source `string.notEndsWith()`: `return {};`. -/
def string_notEndsWith : HostDescriptor := ⟨none, none, none, none⟩

/-- Source `string.empty()`: `noInputCondition('starlette-admin.conditions.empty')`. -/
def string_empty : HostDescriptor := noInputCondition "starlette-admin.conditions.empty"

/-- Source `string.notEmpty()`: `noInputCondition('starlette-admin.conditions.notEmpty')`. -/
def string_notEmpty : HostDescriptor := noInputCondition "starlette-admin.conditions.notEmpty"

/-- Source `number.equal()`: `return {};`. -/
def number_equal : HostDescriptor := ⟨none, none, none, none⟩

/-- Source `number.notEqual()`: `return {};`. -/
def number_notEqual : HostDescriptor := ⟨none, none, none, none⟩

/-- Source `number.greaterThan()`: `return {};`. -/
def number_greaterThan : HostDescriptor := ⟨none, none, none, none⟩

/-- Source `number.greaterThanOrEqual()`: `return {};`. -/
def number_greaterThanOrEqual : HostDescriptor := ⟨none, none, none, none⟩

/-- Source `number.lessThan()`: `return {};`. -/
def number_lessThan : HostDescriptor := ⟨none, none, none, none⟩

/-- Source `number.lessThanOrEqual()`: `return {};`. -/
def number_lessThanOrEqual : HostDescriptor := ⟨none, none, none, none⟩

/-- Source `number.between()`: `return {};`. -/
def number_between : HostDescriptor := ⟨none, none, none, none⟩

/-- Source `number.notBetween()`: `return {};`. -/
def number_notBetween : HostDescriptor := ⟨none, none, none, none⟩

/-- Source `number.empty()`: `noInputCondition('starlette-admin.conditions.empty')`. -/
def number_empty : HostDescriptor := noInputCondition "starlette-admin.conditions.empty"

/-- Source `number.notEmpty()`: `noInputCondition('starlette-admin.conditions.notEmpty')`. -/
def number_notEmpty : HostDescriptor := noInputCondition "starlette-admin.conditions.notEmpty"

/-- Source `date.equal()`: `return {};`. -/
def date_equal : HostDescriptor := ⟨none, none, none, none⟩

/-- Source `date.notEqual()`: `return {};`. -/
def date_notEqual : HostDescriptor := ⟨none, none, none, none⟩

/-- Source `date.greaterThan()`: `return {};`. -/
def date_greaterThan : HostDescriptor := ⟨none, none, none, none⟩

/-- Source `date.greaterThanOrEqual()`: `return {};`. -/
def date_greaterThanOrEqual : HostDescriptor := ⟨none, none, none, none⟩

/-- Source `date.lessThan()`: `return {};`. -/
def date_lessThan : HostDescriptor := ⟨none, none, none, none⟩

/-- Source `date.lessThanOrEqual()`: `return {};`. -/
def date_lessThanOrEqual : HostDescriptor := ⟨none, none, none, none⟩

/-- Source `date.between()`: `return {};`. -/
def date_between : HostDescriptor := ⟨none, none, none, none⟩

/-- Source `date.notBetween()`: `return {};`. -/
def date_notBetween : HostDescriptor := ⟨none, none, none, none⟩

/-- Source `date.empty()`: `noInputCondition('starlette-admin.conditions.empty')`. -/
def date_empty : HostDescriptor := noInputCondition "starlette-admin.conditions.empty"

/-- Source `date.notEmpty()`: `noInputCondition('starlette-admin.conditions.notEmpty')`. -/
def date_notEmpty : HostDescriptor := noInputCondition "starlette-admin.conditions.notEmpty"

/-- Source `boolean.true()`: `noInputCondition('starlette-admin.conditions.true')`. -/
def boolean_true : HostDescriptor := noInputCondition "starlette-admin.conditions.true"

/-- Source `boolean.false()`: `noInputCondition('starlette-admin.conditions.false')`. -/
def boolean_false : HostDescriptor := noInputCondition "starlette-admin.conditions.false"

/-- Source `boolean.empty()`: `noInputCondition('starlette-admin.conditions.empty')`. -/
def boolean_empty : HostDescriptor := noInputCondition "starlette-admin.conditions.empty"

/-- Source `boolean.notEmpty()`: `noInputCondition('starlette-admin.conditions.notEmpty')`. -/
def boolean_notEmpty : HostDescriptor := noInputCondition "starlette-admin.conditions.notEmpty"

/-- A descriptor defines none of the four condition members. -/
def definesNoMember (d : HostDescriptor) : Prop :=
  d.conditionName = none ∧ d.init = none ∧ d.inputValue = none ∧ d.isInputValid = none

/-- C6 counterexample: invoking a method of an empty descriptor is not a
no-op returning nothing — the member is `undefined`, and calling it raises a
`TypeError`, shown here on concrete members of `string.equal`,
`number.equal` and `date.equal`. -/
theorem empty_descriptor_invoke_raises :
    jsCall string_equal.conditionName id = Except.error "TypeError: not a function" ∧
    jsCall string_equal.init dtEmpty = Except.error "TypeError: not a function" ∧
    jsCall number_equal.inputValue [] = Except.error "TypeError: not a function" ∧
    jsCall date_equal.isInputValid [] = Except.error "TypeError: not a function" :=
  ⟨rfl, rfl, rfl, rfl⟩

/-- C6 (amended): for every string/number/date condition whose factory
returns the empty descriptor `{}`, the descriptor defines none of the four
members — each reads as `undefined`, so the host must detect absence and
defer rather than invoke (invoking would raise, see the counterexample). -/
theorem empty_descriptors_define_no_member :
    definesNoMember string_equal ∧ definesNoMember string_notEqual ∧
    definesNoMember string_contains ∧ definesNoMember string_notContains ∧
    definesNoMember string_startsWith ∧ definesNoMember string_notStartsWith ∧
    definesNoMember string_endsWith ∧ definesNoMember string_notEndsWith ∧
    definesNoMember number_equal ∧ definesNoMember number_notEqual ∧
    definesNoMember number_greaterThan ∧ definesNoMember number_greaterThanOrEqual ∧
    definesNoMember number_lessThan ∧ definesNoMember number_lessThanOrEqual ∧
    definesNoMember number_between ∧ definesNoMember number_notBetween ∧
    definesNoMember date_equal ∧ definesNoMember date_notEqual ∧
    definesNoMember date_greaterThan ∧ definesNoMember date_greaterThanOrEqual ∧
    definesNoMember date_lessThan ∧ definesNoMember date_lessThanOrEqual ∧
    definesNoMember date_between ∧ definesNoMember date_notBetween :=
  ⟨⟨rfl, rfl, rfl, rfl⟩, ⟨rfl, rfl, rfl, rfl⟩, ⟨rfl, rfl, rfl, rfl⟩, ⟨rfl, rfl, rfl, rfl⟩,
   ⟨rfl, rfl, rfl, rfl⟩, ⟨rfl, rfl, rfl, rfl⟩, ⟨rfl, rfl, rfl, rfl⟩, ⟨rfl, rfl, rfl, rfl⟩,
   ⟨rfl, rfl, rfl, rfl⟩, ⟨rfl, rfl, rfl, rfl⟩, ⟨rfl, rfl, rfl, rfl⟩, ⟨rfl, rfl, rfl, rfl⟩,
   ⟨rfl, rfl, rfl, rfl⟩, ⟨rfl, rfl, rfl, rfl⟩, ⟨rfl, rfl, rfl, rfl⟩, ⟨rfl, rfl, rfl, rfl⟩,
   ⟨rfl, rfl, rfl, rfl⟩, ⟨rfl, rfl, rfl, rfl⟩, ⟨rfl, rfl, rfl, rfl⟩, ⟨rfl, rfl, rfl, rfl⟩,
   ⟨rfl, rfl, rfl, rfl⟩, ⟨rfl, rfl, rfl, rfl⟩, ⟨rfl, rfl, rfl, rfl⟩, ⟨rfl, rfl, rfl, rfl⟩⟩

/-- C8: for every translation key, `noInputCondition`'s `isInputValid`
returns `true` and its `inputValue` returns nothing (`undefined`), whatever
arguments they are invoked with (including none, `args = []`). -/
theorem noInputCondition_accepts_no_input (key : String) (args : List JSValue) :
    jsCall (noInputCondition key).isInputValid args = Except.ok true ∧
    jsCall (noInputCondition key).inputValue args = Except.ok none :=
  ⟨rfl, rfl⟩

/-- C9: the `init` of a `noInputCondition` descriptor subscribes a one-shot
`draw.dtsb` listener: before any draw event no `dtsb-redrawLogic` trigger
has fired, after the first draw exactly one has, and after any number of
further draws the count is still exactly one. -/
theorem noInputCondition_init_one_shot (key : String) (f : DtState → DtState)
    (hf : (noInputCondition key).init = some f) :
    (f dtEmpty).redrawLogicCount = 0 ∧
    (fireDraws (f dtEmpty) 1).redrawLogicCount = 1 ∧
    ∀ n, (fireDraws (f dtEmpty) (n + 1)).redrawLogicCount = 1 := by
  have hsome : some (fun that => dtOne that) = some f := hf
  have hf2 : (fun that => dtOne that) = f := Option.some.inj hsome
  subst hf2
  have hstable : ∀ (n c : Nat), fireDraws ⟨[], c⟩ n = ⟨[], c⟩ := by
    intro n
    induction n with
    | zero => intro c; rfl
    | succ m ih =>
      intro c
      show fireDraws (fireDraw ⟨[], c⟩) m = _
      have hstep : fireDraw ⟨[], c⟩ = ⟨[], c⟩ := rfl
      rw [hstep]
      exact ih c
  refine ⟨rfl, rfl, ?_⟩
  intro n
  show (fireDraws (fireDraw (dtOne dtEmpty)) n).redrawLogicCount = 1
  have hone : fireDraw (dtOne dtEmpty) = ⟨[], 1⟩ := rfl
  rw [hone, hstable n 1]

/-- C9 witness: the one-shot behavior at the concrete initial state, via
`noInputCondition_init_one_shot` for the `array.empty` condition's key. -/
theorem noInputCondition_init_one_shot_witness :
    (dtOne dtEmpty).redrawLogicCount = 0 ∧
    (fireDraws (dtOne dtEmpty) 1).redrawLogicCount = 1 ∧
    (fireDraws (dtOne dtEmpty) 5).redrawLogicCount = 1 := by
  have h := noInputCondition_init_one_shot "searchBuilder.conditions.array.empty"
    (fun that => dtOne that) rfl
  exact ⟨h.1, h.2.1, h.2.2 4⟩
